import Mathlib

set_option maxHeartbeats 1000000

/-!
Shallow embedding of `lib/Target/RISCV/AsmParser/RISCVAsmParser.cpp`.

The file models the operand data type (`RISCVOperand`), the range predicates,
the register resolver, the address parser and the operand dispatch logic, plus
the Match_MissingFeature diagnostic construction of `MatchAndEmitInstruction`.
External collaborators (the lexer, the expression parser, the generated
matcher tables) are modelled from the specification, as marked in the
individual doc comments.
-/

/-- An MC-layer expression (`MCExpr`): either a resolved constant
(`MCConstantExpr`, on which `dyn_cast<MCConstantExpr>` succeeds) or an
unresolved symbolic expression. -/
inductive MCExpr where
  | const (value : Int)
  | symbolic (name : String)
deriving DecidableEq

/-- Source lines 22-28: return true if `expr` is a constant in the range
`[minValue, maxValue]`; a non-constant expression is never in range. -/
def inRange (expr : MCExpr) (minValue maxValue : Int) : Bool :=
  match expr with
  | .const value => decide (minValue ≤ value) && decide (value ≤ maxValue)
  | .symbolic _ => false

/-- Source lines 33-43: `RISCVOperand::RegisterKind`. -/
inductive RegisterKind where
  | PCReg
  | GR32Reg
  | GR64Reg
  | GR128Reg
  | ADDR32Reg
  | ADDR64Reg
  | FP32Reg
  | FP64Reg
  | FP128Reg
deriving DecidableEq

/-- The discriminated payload of `RISCVOperand` (source lines 46-85: the
`OperandKind` tag together with the union member that is active for it).
For `mem`, `base` and `index` are the 8-bit bitfields of `MemOp`. -/
inductive OperandData where
  | token (data : String)
  | reg (kind : RegisterKind) (num : Nat)
  | accessReg (num : Nat)
  | imm (e : MCExpr)
  | mem (regKind : RegisterKind) (base : Nat) (index : Nat) (disp : MCExpr)
deriving DecidableEq

/-- A parsed operand: payload plus the source span (source lines 54-55). -/
structure RISCVOperand where
  data : OperandData
  startLoc : Nat
  endLoc : Nat
deriving DecidableEq

/-- Source lines 122-127: `RISCVOperand::createImm`. -/
def RISCVOperand.createImm (e : MCExpr) (startLoc endLoc : Nat) : RISCVOperand :=
  ⟨.imm e, startLoc, endLoc⟩

/-- Source lines 128-137: `RISCVOperand::createMem`.  `Base` and `Index` are
stored into 8-bit bitfields (`unsigned Base : 8`), hence the reduction
modulo 256. -/
def RISCVOperand.createMem (regKind : RegisterKind) (base : Nat) (disp : MCExpr)
    (index : Nat) (startLoc endLoc : Nat) : RISCVOperand :=
  ⟨.mem regKind (base % 256) (index % 256) disp, startLoc, endLoc⟩

/-- Source lines 167-169: `isImm()` (kind test). -/
def RISCVOperand.isImm (op : RISCVOperand) : Bool :=
  match op.data with
  | .imm _ => true
  | _ => false

/-- Source lines 170-172: `isImm(MinValue, MaxValue)` =
`Kind == KindImm && inRange(Imm, MinValue, MaxValue)`.  (C++ overloads
`isImm`; Lean needs a distinct name.) -/
def RISCVOperand.isImmRange (op : RISCVOperand) (minValue maxValue : Int) : Bool :=
  match op.data with
  | .imm e => inRange e minValue maxValue
  | _ => false

/-- Source lines 182-186: `isMem(RegKind, HasIndex)` =
`Kind == KindMem && Mem.RegKind == RegKind && (HasIndex || !Mem.Index)`. -/
def RISCVOperand.isMemKind (op : RISCVOperand) (regKind : RegisterKind)
    (hasIndex : Bool) : Bool :=
  match op.data with
  | .mem rk _ index _ => decide (rk = regKind) && (hasIndex || decide (index = 0))
  | _ => false

/-- Source lines 187-189: `isMemDisp12` = `isMem(RegKind, HasIndex) &&
inRange(Mem.Disp, 0, 0xfff)`. -/
def RISCVOperand.isMemDisp12 (op : RISCVOperand) (regKind : RegisterKind)
    (hasIndex : Bool) : Bool :=
  match op.data with
  | .mem _ _ _ disp => op.isMemKind regKind hasIndex && inRange disp 0 0xfff
  | _ => false

/-- Source lines 190-192: `isMemDisp20` = `isMem(RegKind, HasIndex) &&
inRange(Mem.Disp, -524288, 524287)`. -/
def RISCVOperand.isMemDisp20 (op : RISCVOperand) (regKind : RegisterKind)
    (hasIndex : Bool) : Bool :=
  match op.data with
  | .mem _ _ _ disp => op.isMemKind regKind hasIndex && inRange disp (-524288) 524287
  | _ => false

/-- Source line 245: `isU4Imm() { return isImm(0, 15); }`. -/
def RISCVOperand.isU4Imm (op : RISCVOperand) : Bool := op.isImmRange 0 15

/-- Source line 246: `isU6Imm() { return isImm(0, 63); }`. -/
def RISCVOperand.isU6Imm (op : RISCVOperand) : Bool := op.isImmRange 0 63

/-- Source line 247: `isU8Imm() { return isImm(0, 255); }`. -/
def RISCVOperand.isU8Imm (op : RISCVOperand) : Bool := op.isImmRange 0 255

/-- Source line 248: `isS8Imm() { return isImm(-128, 127); }`. -/
def RISCVOperand.isS8Imm (op : RISCVOperand) : Bool := op.isImmRange (-128) 127

/-- Source line 249: `isU12Imm() { return isImm(0, 4096); }`. -/
def RISCVOperand.isU12Imm (op : RISCVOperand) : Bool := op.isImmRange 0 4096

/-- Source line 250: `isS12Imm() { return isImm(-2048, 2047); }`. -/
def RISCVOperand.isS12Imm (op : RISCVOperand) : Bool := op.isImmRange (-2048) 2047

/-- Source line 251: `isU16Imm() { return isImm(0, 65535); }`. -/
def RISCVOperand.isU16Imm (op : RISCVOperand) : Bool := op.isImmRange 0 65535

/-- Source line 252: `isS16Imm() { return isImm(-32768, 32767); }`. -/
def RISCVOperand.isS16Imm (op : RISCVOperand) : Bool := op.isImmRange (-32768) 32767

/-- Source line 253: `isU20Imm() { return isImm(0, 1048576); }`. -/
def RISCVOperand.isU20Imm (op : RISCVOperand) : Bool := op.isImmRange 0 1048576

/-- Source line 254: `isS20Imm() { return isImm(-2048, 2047); }` — note the
bounds in the source are the same as those of `isS12Imm`. -/
def RISCVOperand.isS20Imm (op : RISCVOperand) : Bool := op.isImmRange (-2048) 2047

/-- Modelled from the spec: the register ids `RISCV::X0` .. `RISCV::X31` come
from the generated target description (`RISCVMCTargetDesc.h`), which is not
part of the visible source.  Per the spec an internal id is an opaque small
integer with 0 reserved to mean "no register" ("zero entries indicating an
invalid register" in the source comment at lines 259-261), so we assign
distinct nonzero values. -/
def RISCV.X (n : Nat) : Nat := 1 + n

/-- Source lines 262-270: `GR32Regs`, the map from asm register numbers to
LLVM register numbers. -/
def GR32Regs : List Nat :=
  [RISCV.X 0, RISCV.X 1, RISCV.X 2, RISCV.X 3, RISCV.X 4,
   RISCV.X 5, RISCV.X 6, RISCV.X 7, RISCV.X 8, RISCV.X 9,
   RISCV.X 10, RISCV.X 11, RISCV.X 12, RISCV.X 13, RISCV.X 14,
   RISCV.X 15, RISCV.X 16, RISCV.X 17, RISCV.X 18, RISCV.X 19,
   RISCV.X 20, RISCV.X 21, RISCV.X 22, RISCV.X 23, RISCV.X 24,
   RISCV.X 25, RISCV.X 26, RISCV.X 27, RISCV.X 28, RISCV.X 29,
   RISCV.X 30, RISCV.X 31]

/-- Source: `RISCVAsmParser::OperandMatchResultTy` (from
`MCTargetAsmParser`). -/
inductive OperandMatchResultTy where
  | MatchOperand_Success
  | MatchOperand_NoMatch
  | MatchOperand_ParseFail
deriving DecidableEq

/-- Modelled from the spec: the token kinds the parser needs from the external
lexer ("identifier, percent/sigil, comma, parentheses, end-of-statement").
`exprTok` stands for a maximal sub-sequence the external expression parser
would consume, pre-parsed to its value. -/
inductive AsmToken where
  | percent
  | identifier (text : String)
  | comma
  | lparen
  | rparen
  | exprTok (e : MCExpr)
  | endOfStatement
deriving DecidableEq

/-- A lexed token with its source location. -/
structure LToken where
  loc : Nat
  tok : AsmToken
deriving DecidableEq

/-- Modelled from the spec: the shared lexer cursor plus the diagnostic sink
("reportError(location, message)"), threaded as explicit state. -/
structure ParserState where
  tokens : List LToken
  diags : List (Nat × String)
deriving DecidableEq

/-- The lexer's current token (`Parser.getTok()`). -/
def curTok (s : ParserState) : LToken := s.tokens.headD ⟨1000000, .endOfStatement⟩

/-- The current token's location (`Parser.getTok().getLoc()`). -/
def curLoc (s : ParserState) : Nat := (curTok s).loc

/-- Advance the lexer (`Parser.Lex()`). -/
def lex (s : ParserState) : ParserState := { s with tokens := s.tokens.tail }

/-- Report a diagnostic (`Error(Loc, Msg)` on the diagnostic sink). -/
def emitError (s : ParserState) (loc : Nat) (msg : String) : ParserState :=
  { s with diags := s.diags ++ [(loc, msg)] }

/-- Modelled from the spec: the external expression parser
("parseExpression() -> ConstantOrSymbolicExpr | Fail"); it succeeds exactly
when the current token is a pre-parsed expression, consuming it. -/
def parseExpression (s : ParserState) : Option MCExpr × ParserState :=
  match s.tokens with
  | ⟨_, .exprTok e⟩ :: rest => (some e, { s with tokens := rest })
  | _ => (none, s)

/-- Source lines 291-295: `RISCVAsmParser::Register`. -/
structure Register where
  prefixChar : Char
  number : Nat
  startLoc : Nat
  endLoc : Nat
deriving DecidableEq

instance : Inhabited Register := ⟨⟨' ', 0, 0, 0⟩⟩

/-- Models `StringRef::getAsInteger(10, unsigned&)` on the register-number
text: fails on an empty string, on a non-digit character, and on 32-bit
overflow. -/
def getAsInteger10 (s : List Char) : Option Nat :=
  if s.isEmpty || ! s.all Char.isDigit then none
  else
    let n := s.foldl (fun acc c => acc * 10 + (c.toNat - 48)) 0
    if n < 2 ^ 32 then some n else none

/-- Source lines 391-416: `parseRegister(Register&)`, the raw lexical parse of
`%<prefixChar><number>`.  Returns the C++ convention `true` on failure. -/
def parseRegisterRaw (s : ParserState) (reg : Register) : Bool × Register × ParserState :=
  let reg := { reg with startLoc := curLoc s }
  if (curTok s).tok ≠ AsmToken.percent then (true, reg, s)
  else
    let s := lex s
    match (curTok s).tok with
    | AsmToken.identifier name =>
      if name.data.length < 2 then (true, reg, s)
      else
        let reg := { reg with prefixChar := name.data.headD ' ' }
        match getAsInteger10 (name.data.drop 1) with
        | none => (true, reg, s)
        | some n =>
          let reg := { reg with number := n, endLoc := curLoc s }
          (false, reg, lex s)
    | _ => (true, reg, s)

/-- Source lines 427-436: the validation/lookup part of
`parseRegister(Register&, char, const unsigned*, bool)` once the raw register
has been lexed: prefix/bound/table checks, the address-context zero-register
check, and the remapping `Reg.Number = Regs[Reg.Number]`.  Returns the result,
the updated register and the diagnostics to report. -/
def resolveRegister (reg : Register) (prefixChar : Char) (regs : List Nat)
    (isAddress : Bool) : OperandMatchResultTy × Register × List (Nat × String) :=
  if reg.prefixChar ≠ prefixChar ∨ reg.number > 15 ∨ regs.getD reg.number 0 = 0 then
    (.MatchOperand_ParseFail, reg, [(reg.startLoc, "invalid register")])
  else if reg.number = 0 ∧ isAddress then
    (.MatchOperand_ParseFail, reg, [(reg.startLoc, "%r0 used in an address")])
  else
    (.MatchOperand_Success, { reg with number := regs.getD reg.number 0 }, [])

/-- Source lines 422-437: `parseRegister(Register&, char, const unsigned*,
bool)` — raw parse (failure becomes `MatchOperand_NoMatch`), then validation
and table lookup. -/
def parseRegisterResolve (s : ParserState) (reg : Register) (prefixChar : Char)
    (regs : List Nat) (isAddress : Bool) :
    OperandMatchResultTy × Register × ParserState :=
  match parseRegisterRaw s reg with
  | (true, reg, s) => (.MatchOperand_NoMatch, reg, s)
  | (false, reg, s) =>
    let (result, reg, ds) := resolveRegister reg prefixChar regs isAddress
    (result, reg, { s with diags := s.diags ++ ds })

/-- Source lines 479-500 of `parseAddress`: after the opening parenthesis has
been consumed, parse the first register; if a comma follows, the first
register becomes the index (rejected when `hasIndex` is false, with the
diagnostic at the first register's start location) and a second register is
parsed; the register parsed last becomes the base (`Base = Reg.Number`).
`Sum.inl` is an early return of a non-success result; `Sum.inr` carries
`(index, base)` and the state. -/
def parseAddressBaseIndex (s : ParserState) (hasIndex : Bool) :
    Sum (OperandMatchResultTy × ParserState) (Nat × Nat × ParserState) :=
  match parseRegisterResolve s default 'x' GR32Regs true with
  | (.MatchOperand_Success, reg, s) =>
    if (curTok s).tok = AsmToken.comma then
      let s := lex s
      if !hasIndex then
        Sum.inl (.MatchOperand_ParseFail,
                 emitError s reg.startLoc "invalid use of indexed addressing")
      else
        match parseRegisterResolve s default 'x' GR32Regs true with
        | (.MatchOperand_Success, reg2, s) => Sum.inr (reg.number, reg2.number, s)
        | (result, _, s) => Sum.inl (result, s)
    else
      Sum.inr (0, reg.number, s)
  | (result, _, s) => Sum.inl (result, s)

/-- Source lines 461-513: `RISCVAsmParser::parseAddress`.  Parses the
mandatory displacement, then the optional parenthesized base/index suffix
(note the source passes the hard-coded `'x'`/`GR32Regs` to the register
parser, not the `regs` parameter), requires the closing parenthesis —
returning `MatchOperand_NoMatch` when it is absent — and pushes the memory
operand. -/
def parseAddress (s : ParserState) (operands : List RISCVOperand) (regs : List Nat)
    (regKind : RegisterKind) (hasIndex : Bool) :
    OperandMatchResultTy × List RISCVOperand × ParserState :=
  let startLoc := curLoc s
  match parseExpression s with
  | (none, s) => (.MatchOperand_NoMatch, operands, s)
  | (some disp, s) =>
    if (curTok s).tok = AsmToken.lparen then
      let s := lex s
      match parseAddressBaseIndex s hasIndex with
      | Sum.inl (result, s) => (result, operands, s)
      | Sum.inr (index, base, s) =>
        if (curTok s).tok ≠ AsmToken.rparen then
          (.MatchOperand_NoMatch, operands, s)
        else
          let s := lex s
          let endLoc := curLoc s - 1
          (.MatchOperand_Success,
           operands ++ [RISCVOperand.createMem regKind base disp index startLoc endLoc],
           s)
    else
      let endLoc := curLoc s - 1
      (.MatchOperand_Success,
       operands ++ [RISCVOperand.createMem regKind 0 disp 0 startLoc endLoc],
       s)

/-- Source lines 568-593: `RISCVAsmParser::parseOperand`.  The generated
`MatchOperandParserImpl` (the mnemonic-specific custom operand routine, which
is modelled from the spec as a function parameter since it is generated code)
is tried first; `Success` is returned as-is, `ParseFail` fails immediately,
and only `NoMatch` falls through to the generic bare-immediate path.  Returns
the C++ convention `true` on failure. -/
def parseOperand
    (matchOperandParserImpl : ParserState → List RISCVOperand →
      OperandMatchResultTy × List RISCVOperand × ParserState)
    (s : ParserState) (operands : List RISCVOperand) :
    Bool × List RISCVOperand × ParserState :=
  let (resTy, operands, s) := matchOperandParserImpl s operands
  if resTy = .MatchOperand_Success then (false, operands, s)
  else if resTy = .MatchOperand_ParseFail then (true, operands, s)
  else
    let startLoc := curLoc s
    match parseExpression s with
    | (none, s) => (true, operands, s)
    | (some e, s) =>
      let endLoc := curLoc s - 1
      (false, operands ++ [RISCVOperand.createImm e startLoc endLoc], s)

/-- Modelled from the spec: `getSubtargetFeatureName` is generated matcher
code ("featureName(bitIndex) -> string"); it receives the isolated feature-bit
value `ErrorInfo & Mask` and we render a distinct name from it. -/
def getSubtargetFeatureName (featureBit : Nat) : String :=
  "feature" ++ toString featureBit

/-- One iteration of the Match_MissingFeature loop (source lines 618-624):
if bit `i` of `errorInfo` is set, append the feature name for the isolated
bit value. -/
def featureStep (errorInfo : Nat) (names : List String) (i : Nat) : List String :=
  if errorInfo &&& (1 <<< i) ≠ 0 then
    names ++ [getSubtargetFeatureName (errorInfo &&& (1 <<< i))]
  else names

/-- The feature names appended by the Match_MissingFeature branch of
`MatchAndEmitInstruction` (source lines 612-626): the loop runs
`I = 0 .. sizeof(ErrorInfo) * 8 - 2`, i.e. `sizeof(unsigned) * 8 - 1 = 31`
iterations, testing bits 0 through 30 of the mask. -/
def missingFeatureNames (errorInfo : Nat) : List String :=
  (List.range (4 * 8 - 1)).foldl (featureStep errorInfo) []

/-- The full Match_MissingFeature diagnostic message: `"instruction
requires:"` followed by `" " + name` for each appended feature name. -/
def missingFeatureMsg (errorInfo : Nat) : String :=
  (missingFeatureNames errorInfo).foldl (fun msg name => msg ++ " " ++ name)
    "instruction requires:"

/-! ## Theorems -/

lemma mem_foldl_featureStep_of_mem (errorInfo : Nat) (l : List Nat) (x : String) :
    ∀ acc : List String, x ∈ acc → x ∈ l.foldl (featureStep errorInfo) acc := by
  induction l with
  | nil => intro acc hx; exact hx
  | cons j t ih =>
    intro acc hx
    rw [List.foldl_cons]
    apply ih
    unfold featureStep
    split
    · exact List.mem_append_left _ hx
    · exact hx

lemma name_mem_foldl_featureStep (errorInfo : Nat) (l : List Nat) (i : Nat)
    (hbit : errorInfo &&& (1 <<< i) ≠ 0) :
    ∀ acc : List String, i ∈ l →
      getSubtargetFeatureName (errorInfo &&& (1 <<< i)) ∈ l.foldl (featureStep errorInfo) acc := by
  induction l with
  | nil => intro acc h; cases h
  | cons j t ih =>
    intro acc hi
    rw [List.foldl_cons]
    rcases List.mem_cons.mp hi with h | h
    · subst h
      apply mem_foldl_featureStep_of_mem
      unfold featureStep
      rw [if_pos hbit]
      exact List.mem_append_right _ (List.mem_singleton_self _)
    · exact ih (featureStep errorInfo acc j) h

/-- Claim C1: in `parseAddress` with indexing permitted, when the
parenthesized suffix holds two registers the register parsed first becomes
the index and the register parsed second becomes the base, so `4(x1,x2)`
yields `Memory{base = x2, index = x1, displacement = 4}`; with a single
register `4(x1)` yields `Memory{base = x1, index = 0, displacement = 4}`. -/
theorem parseAddress_index_base_order :
    (parseAddress ⟨[⟨0, .exprTok (.const 4)⟩, ⟨1, .lparen⟩, ⟨2, .percent⟩,
        ⟨3, .identifier "x1"⟩, ⟨4, .comma⟩, ⟨5, .percent⟩, ⟨6, .identifier "x2"⟩,
        ⟨7, .rparen⟩, ⟨8, .endOfStatement⟩], []⟩ [] GR32Regs .ADDR32Reg true)
      = (.MatchOperand_Success,
         [⟨.mem .ADDR32Reg (RISCV.X 2) (RISCV.X 1) (.const 4), 0, 7⟩],
         ⟨[⟨8, .endOfStatement⟩], []⟩) ∧
    (parseAddress ⟨[⟨0, .exprTok (.const 4)⟩, ⟨1, .lparen⟩, ⟨2, .percent⟩,
        ⟨3, .identifier "x1"⟩, ⟨4, .rparen⟩, ⟨5, .endOfStatement⟩], []⟩
        [] GR32Regs .ADDR32Reg true)
      = (.MatchOperand_Success,
         [⟨.mem .ADDR32Reg (RISCV.X 1) 0 (.const 4), 0, 4⟩],
         ⟨[⟨5, .endOfStatement⟩], []⟩) :=
  ⟨rfl, rfl⟩

/-- Counterexample to claim C2 as stated: on the unclosed address `4(x1`
(opening parenthesis consumed, register parsed, no closing parenthesis)
`parseAddress` does NOT return `MatchOperand_ParseFail` — it returns
`MatchOperand_NoMatch`, allowing the caller to retry an alternative syntax. -/
theorem parseAddress_unclosed_not_parsefail :
    (parseAddress ⟨[⟨0, .exprTok (.const 4)⟩, ⟨1, .lparen⟩, ⟨2, .percent⟩,
        ⟨3, .identifier "x1"⟩, ⟨4, .endOfStatement⟩], []⟩
        [] GR32Regs .ADDR32Reg true).1 ≠ .MatchOperand_ParseFail ∧
    (parseAddress ⟨[⟨0, .exprTok (.const 4)⟩, ⟨1, .lparen⟩, ⟨2, .percent⟩,
        ⟨3, .identifier "x1"⟩, ⟨4, .endOfStatement⟩], []⟩
        [] GR32Regs .ADDR32Reg true).1 = .MatchOperand_NoMatch :=
  ⟨by decide, rfl⟩

/-- Claim C2 (amended): in `parseAddress`, once the opening parenthesis has
been consumed and the register parsed, the absence of the closing parenthesis
is reported as `MatchOperand_NoMatch` (source lines 503-504), with no
diagnostic emitted and no `Memory` operand produced; it is not a
`MatchOperand_ParseFail`. -/
theorem parseAddress_unclosed_nomatch (e : MCExpr) (t : AsmToken)
    (ht : t ≠ AsmToken.rparen) (ht2 : t ≠ AsmToken.comma) :
    (parseAddress ⟨[⟨0, .exprTok e⟩, ⟨1, .lparen⟩, ⟨2, .percent⟩,
        ⟨3, .identifier "x1"⟩, ⟨4, t⟩], []⟩ [] GR32Regs .ADDR32Reg true).1
      = .MatchOperand_NoMatch ∧
    (parseAddress ⟨[⟨0, .exprTok e⟩, ⟨1, .lparen⟩, ⟨2, .percent⟩,
        ⟨3, .identifier "x1"⟩, ⟨4, t⟩], []⟩ [] GR32Regs .ADDR32Reg true).2.1 = [] ∧
    (parseAddress ⟨[⟨0, .exprTok e⟩, ⟨1, .lparen⟩, ⟨2, .percent⟩,
        ⟨3, .identifier "x1"⟩, ⟨4, t⟩], []⟩ [] GR32Regs .ADDR32Reg true).2.2.diags = [] := by
  cases t with
  | comma => exact absurd rfl ht2
  | rparen => exact absurd rfl ht
  | percent => exact ⟨rfl, rfl, rfl⟩
  | identifier s => exact ⟨rfl, rfl, rfl⟩
  | lparen => exact ⟨rfl, rfl, rfl⟩
  | exprTok e2 => exact ⟨rfl, rfl, rfl⟩
  | endOfStatement => exact ⟨rfl, rfl, rfl⟩

theorem parseAddress_unclosed_nomatch_witness :
    (parseAddress ⟨[⟨0, .exprTok (.const 4)⟩, ⟨1, .lparen⟩, ⟨2, .percent⟩,
        ⟨3, .identifier "x1"⟩, ⟨4, .endOfStatement⟩], []⟩ [] GR32Regs .ADDR32Reg true).1
      = .MatchOperand_NoMatch ∧
    (parseAddress ⟨[⟨0, .exprTok (.const 4)⟩, ⟨1, .lparen⟩, ⟨2, .percent⟩,
        ⟨3, .identifier "x1"⟩, ⟨4, .endOfStatement⟩], []⟩
        [] GR32Regs .ADDR32Reg true).2.1 = [] ∧
    (parseAddress ⟨[⟨0, .exprTok (.const 4)⟩, ⟨1, .lparen⟩, ⟨2, .percent⟩,
        ⟨3, .identifier "x1"⟩, ⟨4, .endOfStatement⟩], []⟩
        [] GR32Regs .ADDR32Reg true).2.2.diags = [] :=
  parseAddress_unclosed_nomatch (.const 4) .endOfStatement (by decide) (by decide)

/-- Counterexample to claim C3 as stated: the mask `2 ^ 31` is nonzero and has
bit 31 set, yet the Match_MissingFeature loop (whose bound is
`sizeof(unsigned) * 8 - 1 = 31`, testing only bits 0-30) appends no feature
name for it: the diagnostic is the bare `"instruction requires:"`. -/
theorem missingFeatureNames_bit31_missed :
    (2 ^ 31) &&& (1 <<< 31) ≠ 0 ∧
    missingFeatureNames (2 ^ 31) = [] ∧
    missingFeatureMsg (2 ^ 31) = "instruction requires:" :=
  ⟨by decide, rfl, rfl⟩

/-- Claim C3 (amended): when `MatchAndEmitInstruction` receives a
MissingFeature result, the diagnostic names every set bit of the mask at
positions 0 through 30; bit 31 is never examined because the loop runs
`sizeof(ErrorInfo) * 8 - 1 = 31` iterations. -/
theorem missingFeatureNames_complete_below_31 (errorInfo i : Nat)
    (hi : i < 31) (hbit : errorInfo &&& (1 <<< i) ≠ 0) :
    getSubtargetFeatureName (errorInfo &&& (1 <<< i)) ∈ missingFeatureNames errorInfo := by
  unfold missingFeatureNames
  exact name_mem_foldl_featureStep errorInfo _ i hbit [] (List.mem_range.mpr (by omega))

theorem missingFeatureNames_complete_below_31_witness :
    getSubtargetFeatureName (1 &&& (1 <<< 0)) ∈ missingFeatureNames 1 :=
  missingFeatureNames_complete_below_31 1 0 (by decide) (by decide)

/-- Claim C4: the immediate range predicates are exact at their boundaries:
`isU4Imm` accepts the constants 0 and 15 and rejects -1 and 16; `isS12Imm`
accepts -2048 and 2047 and rejects -2049 and 2048. -/
theorem imm_range_boundaries :
    RISCVOperand.isU4Imm ⟨.imm (.const 0), 0, 0⟩ = true ∧
    RISCVOperand.isU4Imm ⟨.imm (.const 15), 0, 0⟩ = true ∧
    RISCVOperand.isU4Imm ⟨.imm (.const (-1)), 0, 0⟩ = false ∧
    RISCVOperand.isU4Imm ⟨.imm (.const 16), 0, 0⟩ = false ∧
    RISCVOperand.isS12Imm ⟨.imm (.const (-2048)), 0, 0⟩ = true ∧
    RISCVOperand.isS12Imm ⟨.imm (.const 2047), 0, 0⟩ = true ∧
    RISCVOperand.isS12Imm ⟨.imm (.const (-2049)), 0, 0⟩ = false ∧
    RISCVOperand.isS12Imm ⟨.imm (.const 2048), 0, 0⟩ = false := by
  decide

/-- Claim C5: every numeric range-classification predicate (`inRange`, hence
`isImm(min,max)`, `isMemDisp12` and `isMemDisp20`) returns false on an operand
whose expression is not a resolved constant, for all bounds, register kinds
and index permissions. -/
theorem symbolic_never_in_range (e : MCExpr) (h : ∀ v : Int, e ≠ MCExpr.const v)
    (minValue maxValue : Int) (startLoc endLoc base index : Nat)
    (regKind regKind' : RegisterKind) (hasIndex : Bool) :
    inRange e minValue maxValue = false ∧
    RISCVOperand.isImmRange ⟨.imm e, startLoc, endLoc⟩ minValue maxValue = false ∧
    RISCVOperand.isMemDisp12 ⟨.mem regKind base index e, startLoc, endLoc⟩
      regKind' hasIndex = false ∧
    RISCVOperand.isMemDisp20 ⟨.mem regKind base index e, startLoc, endLoc⟩
      regKind' hasIndex = false := by
  cases e with
  | const v => exact absurd rfl (h v)
  | symbolic name =>
    refine ⟨rfl, rfl, ?_, ?_⟩ <;>
      simp [RISCVOperand.isMemDisp12, RISCVOperand.isMemDisp20, inRange]

theorem symbolic_never_in_range_witness :
    inRange (.symbolic "sym") (-2048) 2047 = false ∧
    RISCVOperand.isImmRange ⟨.imm (.symbolic "sym"), 0, 0⟩ (-2048) 2047 = false ∧
    RISCVOperand.isMemDisp12 ⟨.mem .ADDR32Reg 1 0 (.symbolic "sym"), 0, 0⟩
      .ADDR32Reg false = false ∧
    RISCVOperand.isMemDisp20 ⟨.mem .ADDR32Reg 1 0 (.symbolic "sym"), 0, 0⟩
      .ADDR32Reg false = false :=
  symbolic_never_in_range (.symbolic "sym") (fun v hv => MCExpr.noConfusion hv)
    (-2048) 2047 0 0 1 0 .ADDR32Reg .ADDR32Reg false

/-- Claim C6: for every already-lexed register with the expected prefix and an
index 0-15 mapping to a nonzero table entry, the resolver succeeds and returns
that table entry as the register number (stated in the non-address context,
the C++ default `IsAddress = false`; index 0 in an address context is claim
C7); for any index over 15, wrong prefix, or zero (reserved) table entry it
fails with the InvalidRegister diagnostic, in any context. -/
theorem resolveRegister_spec (reg : Register) (pfx : Char) (regs : List Nat) :
    (reg.prefixChar = pfx → reg.number ≤ 15 → regs.getD reg.number 0 ≠ 0 →
      resolveRegister reg pfx regs false =
        (.MatchOperand_Success, { reg with number := regs.getD reg.number 0 }, [])) ∧
    (∀ isAddress : Bool,
      reg.prefixChar ≠ pfx ∨ reg.number > 15 ∨ regs.getD reg.number 0 = 0 →
      resolveRegister reg pfx regs isAddress =
        (.MatchOperand_ParseFail, reg, [(reg.startLoc, "invalid register")])) := by
  constructor
  · intro h1 h2 h3
    have hc1 : ¬(reg.prefixChar ≠ pfx ∨ reg.number > 15 ∨ regs.getD reg.number 0 = 0) := by
      push_neg
      exact ⟨h1, by omega, h3⟩
    have hc2 : ¬(reg.number = 0 ∧ (false : Bool) = true) := by simp
    unfold resolveRegister
    rw [if_neg hc1, if_neg hc2]
  · intro isAddress h
    unfold resolveRegister
    rw [if_pos h]

theorem resolveRegister_spec_witness :
    resolveRegister ⟨'x', 1, 0, 0⟩ 'x' GR32Regs false =
      (.MatchOperand_Success, ⟨'x', RISCV.X 1, 0, 0⟩, []) ∧
    resolveRegister ⟨'x', 16, 0, 0⟩ 'x' GR32Regs false =
      (.MatchOperand_ParseFail, ⟨'x', 16, 0, 0⟩, [(0, "invalid register")]) :=
  ⟨(resolveRegister_spec ⟨'x', 1, 0, 0⟩ 'x' GR32Regs).1 rfl (by decide) (by decide),
   (resolveRegister_spec ⟨'x', 16, 0, 0⟩ 'x' GR32Regs).2 false (by decide)⟩

/-- Claim C7: resolving register index 0 in an address context fails with the
ZeroRegisterInAddress diagnostic (`"%r0 used in an address"` at the register's
start location), while the same register index 0 outside an address context
succeeds, returning the table entry for slot 0. -/
theorem resolveRegister_zero_address :
    (resolveRegister ⟨'x', 0, 7, 9⟩ 'x' GR32Regs true) =
      (.MatchOperand_ParseFail, ⟨'x', 0, 7, 9⟩, [(7, "%r0 used in an address")]) ∧
    (resolveRegister ⟨'x', 0, 7, 9⟩ 'x' GR32Regs false).1 = .MatchOperand_Success ∧
    (resolveRegister ⟨'x', 0, 7, 9⟩ 'x' GR32Regs false).2.1.number = RISCV.X 0 := by
  decide

/-- Claim C8: `parseAddress` with indexing not permitted, on input `4(x1,x2)`,
fails with the InvalidIndexedAddress diagnostic (`"invalid use of indexed
addressing"`) reported at the start location of the first-parsed register
(location 2, the would-be index register `x1`), and produces no Memory
operand. -/
theorem parseAddress_forbidden_index :
    (parseAddress ⟨[⟨0, .exprTok (.const 4)⟩, ⟨1, .lparen⟩, ⟨2, .percent⟩,
        ⟨3, .identifier "x1"⟩, ⟨4, .comma⟩, ⟨5, .percent⟩, ⟨6, .identifier "x2"⟩,
        ⟨7, .rparen⟩, ⟨8, .endOfStatement⟩], []⟩ [] GR32Regs .ADDR32Reg false)
      = (.MatchOperand_ParseFail, [],
         ⟨[⟨5, .percent⟩, ⟨6, .identifier "x2"⟩, ⟨7, .rparen⟩, ⟨8, .endOfStatement⟩],
          [(2, "invalid use of indexed addressing")]⟩) :=
  rfl

/-- Claim C9: in `parseOperand`, a custom-routine `Success` is returned as-is,
a custom `ParseFail` fails immediately without attempting the generic
immediate path, and only `NoMatch` falls through to the generic bare-immediate
(expression) path, whose outcome (failure, or a pushed immediate operand)
becomes the result. -/
theorem parseOperand_custom_dispatch
    (impl : ParserState → List RISCVOperand →
      OperandMatchResultTy × List RISCVOperand × ParserState)
    (s s' : ParserState) (operands operands' : List RISCVOperand)
    (resTy : OperandMatchResultTy)
    (himpl : impl s operands = (resTy, operands', s')) :
    (resTy = .MatchOperand_Success →
      parseOperand impl s operands = (false, operands', s')) ∧
    (resTy = .MatchOperand_ParseFail →
      parseOperand impl s operands = (true, operands', s')) ∧
    (resTy = .MatchOperand_NoMatch →
      ((parseExpression s').1 = none →
        parseOperand impl s operands = (true, operands', (parseExpression s').2)) ∧
      (∀ e, (parseExpression s').1 = some e →
        parseOperand impl s operands =
          (false,
           operands' ++
             [RISCVOperand.createImm e (curLoc s') (curLoc (parseExpression s').2 - 1)],
           (parseExpression s').2))) := by
  refine ⟨?_, ?_, ?_⟩
  · intro h
    subst h
    simp [parseOperand, himpl]
  · intro h
    subst h
    simp [parseOperand, himpl]
  · intro h
    subst h
    constructor
    · intro hnone
      rcases hpe : parseExpression s' with ⟨oe, s2⟩
      rw [hpe] at hnone
      simp only at hnone
      subst hnone
      simp [parseOperand, himpl, hpe]
    · intro e he
      rcases hpe : parseExpression s' with ⟨oe, s2⟩
      rw [hpe] at he
      simp only at he
      subst he
      simp [parseOperand, himpl, hpe]

theorem parseOperand_custom_dispatch_witness :
    parseOperand (fun s ops => (.MatchOperand_Success, ops, s)) ⟨[], []⟩ [] =
      (false, [], ⟨[], []⟩) :=
  (parseOperand_custom_dispatch (fun s ops => (.MatchOperand_Success, ops, s))
    ⟨[], []⟩ ⟨[], []⟩ [] [] .MatchOperand_Success rfl).1 rfl

/-- Claim C10: `isS20Imm` and `isS12Imm` are extensionally equal — both accept
exactly the constant immediates in [-2048, 2047], not the 20-bit signed range:
the constant 4096 satisfies neither, and the 20-bit-range values -524288 and
524287 are rejected by `isS20Imm`. -/
theorem isS20Imm_matches_isS12Imm :
    (∀ op : RISCVOperand, op.isS20Imm = op.isS12Imm) ∧
    (∀ op : RISCVOperand, op.isS20Imm = op.isImmRange (-2048) 2047) ∧
    (∀ (v : Int) (l l' : Nat),
      RISCVOperand.isS20Imm ⟨.imm (.const v), l, l'⟩ =
        (decide (-2048 ≤ v) && decide (v ≤ 2047))) ∧
    RISCVOperand.isS20Imm ⟨.imm (.const 4096), 0, 0⟩ = false ∧
    RISCVOperand.isS12Imm ⟨.imm (.const 4096), 0, 0⟩ = false ∧
    RISCVOperand.isS20Imm ⟨.imm (.const (-524288)), 0, 0⟩ = false ∧
    RISCVOperand.isS20Imm ⟨.imm (.const 524287), 0, 0⟩ = false :=
  ⟨fun _ => rfl, fun _ => rfl, fun _ _ _ => rfl,
   by decide, by decide, by decide, by decide⟩
